import Mathlib

/-!
Verification development for the your-spotify-mcp server.

This file gives a shallow embedding, in Lean, of the data-reconciliation and
derivation layer of the server: the response normalizers and derived-analytics
operations of the service class (file src/services/your-spotify-service.ts,
first revision, which is the one the tool handlers use), together with the
relevant tool handlers (get_top_tracks, compare_listening_periods,
create_custom_wrapped, analyze_affinity, search_listening_history and the
rank lookups).

Modelling conventions, matching the JavaScript source:
- A possibly absent upstream field is an Option.  The JavaScript fallback
  operator on strings (a || b) treats the empty string as absent, which
  jsOrS models; on counts (a || 0) it agrees with Option.getD 0 because the
  fallback value is itself 0.
- Machine numbers are Nat or Int; the one floating-point computation the
  claims touch (Math.round of a percentage) is modelled exactly over the
  rationals by jsRound, since Math.round rounds half toward positive
  infinity.
- Each tool operation is split at its first upstream HTTP request: a phase-1
  function embeds everything the handler and service run before any request
  is issued (validation), returning either the thrown error message or the
  list of upstream endpoints that will then be fetched; the post-fetch
  computation is a pure function of the upstream payloads.
-/

namespace YourSpotifyMCP

/-- JavaScript string fallback a || d where the empty string counts as falsy. -/
def jsOrS (a : Option String) (d : String) : String :=
  match a with
  | some s => if s = "" then d else s
  | none => d

/-- JavaScript numeric fallback a || d where 0 counts as falsy. -/
def jsOrN (a : Option Nat) (d : Nat) : Nat :=
  match a with
  | some n => if n = 0 then d else n
  | none => d

/-- Math.round over the rationals: round half toward positive infinity. -/
def jsRound (q : ℚ) : Int := ⌊q + 1 / 2⌋

/-- Math.ceil of an exact integer quotient, as used on millisecond date
differences: ceiling division of a by b for positive b. -/
def jsCeilDiv (a b : Int) : Int := -(Int.ediv (-a) b)

-- ============================================================
-- Canonical domain records (source: interface declarations in
-- src/services/your-spotify-service.ts)
-- ============================================================

/-- Normalized artist record. -/
structure Artist where
  id : String
  name : String
  genres : Option (List String)
deriving Repr, DecidableEq

/-- Normalized album record. -/
structure Album where
  id : String
  name : String
  release_date : String
deriving Repr, DecidableEq

/-- Normalized track record. -/
structure Track where
  id : String
  name : String
  artists : List Artist
  album : Album
  duration_ms : Nat
  explicit : Bool
  uri : String
deriving Repr, DecidableEq

/-- A track paired with its play count. -/
structure TrackWithPlayCount where
  track : Track
  play_count : Nat
deriving Repr, DecidableEq

/-- An artist paired with play statistics. -/
structure ArtistWithStats where
  artist : Artist
  play_count : Nat
  listening_time_ms : Nat
deriving Repr, DecidableEq

-- ============================================================
-- Raw upstream payload items
-- ============================================================

/-- One raw item of an upstream /spotify/top/songs or /spotify/top/artists
response.  Every field the service reads is optional; mongoId stands for the
upstream field written _id in the source. -/
structure RawTopItem where
  trackId : Option String := none
  trackName : Option String := none
  trackDurationMs : Option Nat := none
  artistId : Option String := none
  artistName : Option String := none
  artistGenres : Option (List String) := none
  albumId : Option String := none
  albumName : Option String := none
  mongoId : Option String := none
  count : Option Nat := none
  durationMs : Option Nat := none
  totalCount : Option Nat := none
deriving Repr, DecidableEq

/-- Normalizer of one top-songs item used by getTopTracks (service lines
245 to 256).  Both the id and the uri use the fallback chain
item.track?.id || item._id || the empty string. -/
def normTopTrack (item : RawTopItem) : TrackWithPlayCount :=
  { track :=
      { id := jsOrS item.trackId (jsOrS item.mongoId "")
        name := jsOrS item.trackName "Unknown"
        artists := [{ id := jsOrS item.artistId ""
                      name := jsOrS item.artistName "Unknown"
                      genres := none }]
        album := { id := jsOrS item.albumId ""
                   name := jsOrS item.albumName ""
                   release_date := "" }
        duration_ms := item.trackDurationMs.getD 0
        explicit := false
        uri := "spotify:track:" ++ jsOrS item.trackId (jsOrS item.mongoId "") }
    play_count := item.count.getD 0 }

/-- Normalizer of one top-artists item used by getTopArtists (service lines
291 to 299). -/
def normTopArtist (item : RawTopItem) : ArtistWithStats :=
  { artist := { id := jsOrS item.artistId (jsOrS item.mongoId "")
                name := jsOrS item.artistName "Unknown"
                genres := item.artistGenres }
    play_count := item.count.getD 0
    listening_time_ms := item.durationMs.getD 0 }

-- ============================================================
-- The stable descending sort performed by Array.prototype.sort with the
-- comparator (a, b) => b.play_count - a.play_count.  Array.prototype.sort
-- is stable, so its output is the unique permutation of the input that is
-- non-increasing in the key and keeps equal-key elements in input order;
-- the insertion sort below produces exactly that list.
-- ============================================================

/-- Insert x into a list, before the first element whose key does not
exceed the key of x. -/
def insertByKey (k : α → Nat) (x : α) : List α → List α
  | [] => [x]
  | y :: ys => if k y ≤ k x then x :: y :: ys else y :: insertByKey k x ys

/-- Stable sort by a Nat key, descending. -/
def sortByKeyDesc (k : α → Nat) : List α → List α
  | [] => []
  | x :: xs => insertByKey k x (sortByKeyDesc k xs)

/-- Track list produced by getTopTracks (service lines 245 to 256): map the
normalizer over the raw payload and sort by play count descending.  The
requested limit is only forwarded upstream as the nb query parameter; the
local computation never uses it, which the unused argument records. -/
def getTopTracksTracks (_limit : Nat) (rawData : List RawTopItem) :
    List TrackWithPlayCount :=
  sortByKeyDesc (fun t => t.play_count) (rawData.map normTopTrack)

/-- Artist list produced by getTopArtists (service lines 291 to 299). -/
def getTopArtistsArtists (_limit : Nat) (rawData : List RawTopItem) :
    List ArtistWithStats :=
  sortByKeyDesc (fun a => a.play_count) (rawData.map normTopArtist)

-- ============================================================
-- Properties of the stable descending sort
-- ============================================================

/-- Membership after insertion. -/
def c1ItemA : RawTopItem := { trackName := some "A", count := some 10 }

/-- Upstream item with track name B and count 25. -/
def c1ItemB : RawTopItem := { trackName := some "B", count := some 25 }

/-- The upstream top-songs payload of the scenario: A(10) then B(25). -/
def c1Payload : List RawTopItem := [c1ItemA, c1ItemB]

/-- C1 counterexample: with requested limit 1 and an upstream payload of two
items, getTopTracks returns a list of length 2, not min(1, 2) = 1 — the
service never truncates locally, it only forwards the limit upstream as the
nb query parameter.  So the claimed output length min(requested_limit,
available_count) fails as stated. -/
structure CivilDate where
  year : Nat
  month : Nat
  day : Nat
deriving Repr, DecidableEq

/-- Gregorian leap-year test. -/
def isLeap (y : Nat) : Bool := y % 4 = 0 && (y % 100 ≠ 0 || y % 400 = 0)

/-- Number of days of a month. -/
def daysInMonth (y m : Nat) : Nat :=
  if m = 2 then (if isLeap y then 29 else 28)
  else if m = 4 ∨ m = 6 ∨ m = 9 ∨ m = 11 then 30
  else 31

/-- The date is an actual calendar date with a four-digit year, as the
input regex of every tool requires. -/
def ValidDate (d : CivilDate) : Prop :=
  1 ≤ d.year ∧ d.year ≤ 9999 ∧ 1 ≤ d.month ∧ d.month ≤ 12 ∧
    1 ≤ d.day ∧ d.day ≤ daysInMonth d.year d.month

instance (d : CivilDate) : Decidable (ValidDate d) := by
  unfold ValidDate
  infer_instance

/-- Civil day number of a date (days since 0000-03-01, Gregorian,
following the standard days-from-civil algorithm).  Two valid dates that
are n calendar days apart have day numbers that differ by exactly n. -/
def dayNumber (dt : CivilDate) : Nat :=
  let y := if dt.month ≤ 2 then dt.year - 1 else dt.year
  let era := y / 400
  let yoe := y % 400
  let mp := (dt.month + 9) % 12
  let doy := (153 * mp + 2) / 5 + (dt.day - 1)
  let doe := yoe * 365 + yoe / 4 - yoe / 100 + doy
  era * 146097 + doe

/-- Millisecond timestamp of the date at UTC midnight, the value the
JavaScript Date constructor yields for a YYYY-MM-DD string; 719468 is the
civil day number of 1970-01-01. -/
def dateMs (dt : CivilDate) : Int := ((dayNumber dt : Int) - 719468) * 86400000

/-- Sanity anchor: the Unix epoch has millisecond value 0. -/
def getTopTracksPhase1 (start_date end_date : Option CivilDate) :
    Except String (List String) :=
  match start_date, end_date with
  | some s, some e =>
    if dateMs s > dateMs e then Except.error "start_date must be before end_date"
    else Except.ok ["/spotify/top/songs"]
  | _, _ => Except.ok ["/spotify/top/songs"]

/-- Validation phase of handleCreateCustomWrapped (create-custom-wrapped
tool, lines 208 to 228): reject start after end, then reject an inclusive
day span above 366 (the thrown message says 365 although the bound is
366), and otherwise proceed to the upstream fetches with the computed day
count.  The day count is Math.ceil of the millisecond difference divided
by one day, plus one; the difference of two UTC midnights is an exact
multiple of one day. -/
def wrappedPhase1 (start_date end_date : CivilDate) : Except String Int :=
  if dateMs start_date > dateMs end_date then
    Except.error "start_date must be before end_date"
  else
    let days := jsCeilDiv (dateMs end_date - dateMs start_date) 86400000 + 1
    if days > 366 then
      Except.error "Date range cannot exceed 365 days for custom Wrapped"
    else Except.ok days

/-- Input of compare_listening_periods. -/
structure CompareInput where
  period1_start : CivilDate
  period1_end : CivilDate
  period2_start : CivilDate
  period2_end : CivilDate
deriving Repr, DecidableEq

/-- The six upstream requests of service.compareListeningPeriods (service
lines 1078 to 1085). -/
def compareUpstreamEndpoints : List String :=
  ["/spotify/top/songs", "/spotify/top/artists", "/spotify/time_per",
   "/spotify/top/songs", "/spotify/top/artists", "/spotify/time_per"]

/-- Validation phase of handleCompareListeningPeriods (compare tool lines
128 to 137): the handler performs no validation at all and immediately
calls service.compareListeningPeriods, which issues its six upstream
requests; the input is never inspected before the requests go out. -/
def comparePhase1 (_input : CompareInput) : Except String (List String) :=
  Except.ok compareUpstreamEndpoints

/-- Input of analyze_affinity. -/
structure AffinityInput where
  user_ids : List String
  start_date : Option CivilDate := none
  end_date : Option CivilDate := none
deriving Repr, DecidableEq

/-- JavaScript String.prototype.trim: strip whitespace from both ends
(modelled character-wise; the histogram of characters the tools accept is
ASCII, where this coincides with the JavaScript definition). -/
def jsTrim (s : String) : String :=
  String.mk (((s.toList.dropWhile Char.isWhitespace).reverse.dropWhile
    Char.isWhitespace).reverse)

/-- Pre-upstream validation inside service.analyzeAffinity (service lines
605 to 629): at least two ids, and at least two ids that are truthy with a
truthy trim, before /spotify/collaborative/top/songs is requested. -/
def affinityServiceCheck (ids : List String) : Except String (List String) :=
  if ids.length < 2 then
    Except.error "Affinity analysis requires at least 2 user IDs"
  else
    let validUserIds := ids.filter (fun id => id != "" && jsTrim id != "")
    if validUserIds.length < 2 then
      Except.error "Affinity analysis requires at least 2 valid user IDs (non-empty strings)"
    else Except.ok ["/spotify/collaborative/top/songs"]

/-- Validation phase of handleAnalyzeAffinity (analyze-affinity tool lines
234 to 255) followed by the service checks: cardinality 2 to 5, no
duplicates (the source compares the size of a Set of the ids with the list
length, modelled by dedup), date order when both dates are present, then
the service-side checks. -/
def affinityPhase1 (input : AffinityInput) : Except String (List String) :=
  if input.user_ids.length < 2 then
    Except.error "At least 2 user IDs are required for affinity analysis"
  else if input.user_ids.length > 5 then
    Except.error "Maximum 5 users can be compared at once"
  else if input.user_ids.dedup.length ≠ input.user_ids.length then
    Except.error "Duplicate user IDs are not allowed"
  else
    match input.start_date, input.end_date with
    | some s, some e =>
      if dateMs s > dateMs e then
        Except.error "start_date must be before end_date"
      else affinityServiceCheck input.user_ids
    | _, _ => affinityServiceCheck input.user_ids

/-- Concrete compare_listening_periods input whose first period has start
after end. -/
def c2BadCompare : CompareInput :=
  { period1_start := { year := 2024, month := 6, day := 1 }
    period1_end := { year := 2024, month := 1, day := 1 }
    period2_start := { year := 2024, month := 1, day := 1 }
    period2_end := { year := 2024, month := 1, day := 31 } }

/-- C2 counterexample: compare_listening_periods is a period-accepting
operation, yet on an input whose first period has start strictly after end
it rejects nothing — its pre-upstream phase returns the full list of six
upstream requests, so the operation issues upstream HTTP calls instead of
rejecting.  The claim that every period-accepting operation rejects such
input before any upstream call is therefore false. -/
structure RankEntry where
  id : Option String := none
  count : Option Nat := none
deriving Repr, DecidableEq

/-- Raw upstream response of a rank-neighborhood endpoint. -/
structure RankRaw where
  index : Option Nat := none
  results : Option (List RankEntry) := none
deriving Repr, DecidableEq

/-- Raw fields of the stats endpoint that getTrackRank reads to build the
track record. -/
structure RawTrackInfo where
  trackName : Option String := none
  trackDurationMs : Option Nat := none
  artistMongoId : Option String := none
  artistName : Option String := none
  albumMongoId : Option String := none
  albumName : Option String := none
deriving Repr, DecidableEq

/-- Result of getArtistRank. -/
structure ArtistRankResult where
  artist : Artist
  rank : Nat
  total_artists : Nat
  play_count : Nat
deriving Repr, DecidableEq

/-- Result of getTrackRank. -/
structure TrackRankResult where
  track : Track
  rank : Nat
  total_tracks : Nat
  play_count : Nat
deriving Repr, DecidableEq

/-- Embedding of getArtistRank (service lines 784 to 802): rank is the
zero-based upstream index plus one, and the total population is estimated
as the maximum of the neighborhood window length and the rank, because the
upstream results array is only a local window. -/
def getArtistRank (artistId : String) (raw : RankRaw)
    (statsName : Option String) (statsGenres : Option (List String)) :
    ArtistRankResult :=
  let artistPlayCount :=
    (((raw.results.getD []).find? (fun r => r.id == some artistId)).bind
      (fun r => r.count)).getD 0
  let rank := raw.index.getD 0 + 1
  let resultsLength := (raw.results.getD []).length
  let totalArtists := max resultsLength rank
  { artist := { id := artistId, name := jsOrS statsName "Unknown"
                genres := statsGenres }
    rank := rank
    total_artists := totalArtists
    play_count := artistPlayCount }

/-- Embedding of getTrackRank (service lines 826 to 848). -/
def getTrackRank (trackId : String) (raw : RankRaw) (info : RawTrackInfo) :
    TrackRankResult :=
  let rank := raw.index.getD 0 + 1
  let resultsLength := (raw.results.getD []).length
  let totalTracks := max resultsLength rank
  { track := { id := trackId
               name := jsOrS info.trackName "Unknown"
               artists := [{ id := jsOrS info.artistMongoId ""
                             name := jsOrS info.artistName ""
                             genres := none }]
               album := { id := jsOrS info.albumMongoId ""
                          name := jsOrS info.albumName ""
                          release_date := "" }
               duration_ms := info.trackDurationMs.getD 0
               explicit := false
               uri := "spotify:track:" ++ trackId }
    rank := rank
    total_tracks := totalTracks
    play_count :=
      (((raw.results.getD []).find? (fun r => r.id == some trackId)).bind
        (fun r => r.count)).getD 0 }

/-- Upstream rank neighborhood of the end-to-end scenario: zero-based
index 4 with a five-entry results window. -/
def c3Neighborhood : RankRaw :=
  { index := some 4, results := some (List.replicate 5 {}) }

/-- C3: for every upstream rank-neighborhood response, rank equals the
zero-based upstream index plus one, the reported population is
max(window_length, rank), hence rank never exceeds the population; and the
concrete neighborhood with index 4 and a five-item window yields rank 5
and total 5, for artists and for tracks alike. -/
def argmaxFirst : List (α × Nat) → Option (α × Nat)
  | [] => none
  | e :: es => some (es.foldl (fun mx c => if mx.2 < c.2 then c else mx) e)

/-- Twelve-hour formatting of an hour bucket: hour modulo 12 with the
JavaScript falsy fallback of 0 to 12, suffixed AM or PM. -/
def fmtHour (h : Nat) : String :=
  let ampm := if h ≥ 12 then "PM" else "AM"
  let hour12 := if h % 12 = 0 then 12 else h % 12
  toString hour12 ++ ampm

/-- Embedding of getPeakHour.  The hour histogram handed to it by
createCustomWrapped has the decimal strings of 0 to 23 as keys, modelled
as Nat keys.  Note there is no zero check: an all-zero histogram yields
the first bucket, not Unknown. -/
def getPeakHour (hourData : List (Nat × Nat)) : String :=
  match argmaxFirst hourData with
  | none => "Unknown"
  | some p => fmtHour p.1

/-- Week-day names, Sunday first, as in the source. -/
def dayNames : List String :=
  ["Sunday", "Monday", "Tuesday", "Wednesday", "Thursday", "Friday", "Saturday"]

/-- JavaScript parseInt with radix 10 on the strings that occur as
histogram keys: the leading digit run, or none when the string does not
start with a digit (parseInt then yields NaN). -/
def parseIntLeading (s : String) : Option Nat :=
  let digits := s.toList.takeWhile (fun c => c.isDigit)
  if digits = [] then none
  else some (digits.foldl (fun n c => n * 10 + (c.toNat - 48)) 0)

/-- Embedding of getPeakDay: first-maximum entry of the day histogram,
Unknown when the histogram is empty or the maximum value is zero, the key
itself when it is a day name, else the key parsed as an index into the
day names with Unknown on failure. -/
def getPeakDay (dayData : List (String × Nat)) : String :=
  match argmaxFirst dayData with
  | none => "Unknown"
  | some p =>
    if p.2 = 0 then "Unknown"
    else if dayNames.contains p.1 then p.1
    else
      match parseIntLeading p.1 with
      | none => "Unknown"
      | some i => dayNames.getD i "Unknown"

/-- The reduce step never leaves the list: the fold result is the seed or
one of the elements. -/
def allZeroHour24 : List (Nat × Nat) := (List.range 24).map (fun h => (h, 0))

/-- C4 counterexample: on the all-zero hour histogram, getPeakHour reports
the first bucket formatted as 12AM instead of Unknown — it has no all-zero
check, unlike getPeakDay.  So the claim that an all-zero histogram always
reports Unknown is false for the peak hour. -/
structure AlbumWithPlayCount where
  album : Album
  play_count : Nat
deriving Repr, DecidableEq

/-- The aggregate the service createCustomWrapped returns to the handler
after its five upstream fetches. -/
structure WrappedData where
  total_listening_time_ms : Nat
  total_tracks_played : Nat
  unique_tracks : Nat
  unique_artists : Nat
  top_tracks : List TrackWithPlayCount
  top_artists : List ArtistWithStats
  top_albums : List AlbumWithPlayCount
  listening_by_hour : List (Nat × Nat)
  listening_by_day : List (String × Nat)
deriving Repr, DecidableEq

/-- One formatted top-track row of the wrapped report. -/
structure WrappedTrackEntry where
  rank : Nat
  name : String
  artists : List String
  play_count : Nat
  uri : String
deriving Repr, DecidableEq

/-- One formatted top-artist row. -/
structure WrappedArtistEntry where
  rank : Nat
  name : String
  play_count : Nat
  listening_time_hours_x10 : Int
deriving Repr, DecidableEq

/-- One formatted top-album row; the artist column repeats the album name,
as the source does. -/
structure WrappedAlbumEntry where
  rank : Nat
  name : String
  artist : String
  play_count : Nat
deriving Repr, DecidableEq

/-- The peak-pattern block. -/
structure WrappedPatterns where
  peak_hour : String
  peak_day_of_week : String
  most_active_date : String
deriving Repr, DecidableEq

/-- The discoveries block. -/
structure Discoveries where
  new_artists_count : Nat
  new_tracks_count : Nat
  top_new_artist : Option String
deriving Repr, DecidableEq

/-- The summary block; hour and per-day averages are tenths. -/
structure WrappedSummary where
  total_listening_time_hours_x10 : Int
  total_tracks_played : Nat
  unique_tracks : Nat
  unique_artists : Nat
  average_tracks_per_day_x10 : Int
deriving Repr, DecidableEq

/-- The full wrapped report of the handler. -/
structure WrappedOutput where
  period_start : CivilDate
  period_end : CivilDate
  period_days : Int
  summary : WrappedSummary
  top_tracks : List WrappedTrackEntry
  top_artists : List WrappedArtistEntry
  top_albums : List WrappedAlbumEntry
  patterns : WrappedPatterns
  discoveries : Discoveries
deriving Repr, DecidableEq

/-- Milliseconds to hours rounded to one decimal, in tenths: the
formatHours helper of the tool. -/
def formatHoursX10 (ms : Nat) : Int := jsRound ((ms : ℚ) * 10 / 3600000)

/-- Two-digit zero padding. -/
def pad2 (n : Nat) : String := if n < 10 then "0" ++ toString n else toString n

/-- The YYYY-MM-DD rendering of a date, the form the raw input string has. -/
def formatCivil (d : CivilDate) : String :=
  toString d.year ++ "-" ++ pad2 d.month ++ "-" ++ pad2 d.day

/-- The response construction of handleCreateCustomWrapped after the
service data arrives (tool lines 230 to 302): top-five slices with ranks,
peak patterns via getPeakHour and getPeakDay, the first-maximum key of the
day histogram as most active date with the start date as fallback, and a
hard-coded all-zero discoveries block. -/
def wrappedBuild (start_date end_date : CivilDate) (days : Int)
    (data : WrappedData) : WrappedOutput :=
  let topTracks := (data.top_tracks.take 5).mapIdx (fun i item =>
    { rank := i + 1
      name := item.track.name
      artists := item.track.artists.map (fun a => a.name)
      play_count := item.play_count
      uri := item.track.uri })
  let topArtists := (data.top_artists.take 5).mapIdx (fun i item =>
    { rank := i + 1
      name := item.artist.name
      play_count := item.play_count
      listening_time_hours_x10 := formatHoursX10 item.listening_time_ms })
  let topAlbums := (data.top_albums.take 5).mapIdx (fun i item =>
    { rank := i + 1
      name := item.album.name
      artist := item.album.name
      play_count := item.play_count })
  let mostActiveDate :=
    match argmaxFirst data.listening_by_day with
    | some m => m.1
    | none => formatCivil start_date
  { period_start := start_date
    period_end := end_date
    period_days := days
    summary :=
      { total_listening_time_hours_x10 := formatHoursX10 data.total_listening_time_ms
        total_tracks_played := data.total_tracks_played
        unique_tracks := data.unique_tracks
        unique_artists := data.unique_artists
        average_tracks_per_day_x10 :=
          jsRound ((data.total_tracks_played : ℚ) * 10 / (days : ℚ)) }
    top_tracks := topTracks
    top_artists := topArtists
    top_albums := topAlbums
    patterns :=
      { peak_hour := getPeakHour data.listening_by_hour
        peak_day_of_week := getPeakDay data.listening_by_day
        most_active_date := mostActiveDate }
    discoveries :=
      { new_artists_count := 0, new_tracks_count := 0, top_new_artist := none } }

/-- The whole create_custom_wrapped handler: phase-1 validation, then the
construction above on the fetched data. -/
def handleCreateCustomWrapped (start_date end_date : CivilDate)
    (data : WrappedData) : Except String WrappedOutput :=
  match wrappedPhase1 start_date end_date with
  | Except.error e => Except.error e
  | Except.ok days => Except.ok (wrappedBuild start_date end_date days data)

/-- Exact ceiling division by the length of a day. -/
def c10Data : WrappedData :=
  { total_listening_time_ms := 7200000
    total_tracks_played := 100
    unique_tracks := 10
    unique_artists := 5
    top_tracks := []
    top_artists := []
    top_albums := []
    listening_by_hour := allZeroHour24
    listening_by_day := dayNames.map (fun d => (d, 0)) }

/-- C10: every successful create_custom_wrapped response carries the
hard-coded discoveries block — zero new artists, zero new tracks and no
top new artist — regardless of the input period and the upstream data. -/
structure ComparePeriodStats where
  total_plays : Nat
  total_hours_x10 : Int
  unique_tracks : Nat
  unique_artists : Nat
  top_artist : Option String
  top_track : Option String
deriving Repr, DecidableEq

/-- Sum of the count fields of a time_per payload (milliseconds). -/
def sumCounts (timePer : List (Option Nat)) : Nat :=
  timePer.foldl (fun acc c => acc + c.getD 0) 0

/-- One period of service.compareListeningPeriods: total plays from the
total_count field of the first top-songs item, actual duration from the
time_per sum, unique counts hard-coded to zero, and the names of the first
top artist and track. -/
def serviceComparePeriod (songs artists : List RawTopItem)
    (timePer : List (Option Nat)) : ComparePeriodStats :=
  { total_plays := (songs.head?.bind (fun s => s.totalCount)).getD 0
    total_hours_x10 := jsRound ((sumCounts timePer : ℚ) * 10 / 3600000)
    unique_tracks := 0
    unique_artists := 0
    top_artist := artists.head?.map (fun a => jsOrS a.artistName "Unknown")
    top_track := songs.head?.map (fun s => jsOrS s.trackName "Unknown") }

/-- The comparison block of the compare handler output. -/
structure ComparisonBlock where
  plays_change : Int
  plays_change_percent : Int
  hours_change_x10 : Int
  diversity_change : Int
deriving Repr, DecidableEq

/-- The comparison computation of handleCompareListeningPeriods (tool
lines 139 to 173): plays delta, percentage delta guarded to 0 when the
first period has no plays, hour delta in tenths, artist-diversity delta. -/
def compareComparison (p1 p2 : ComparePeriodStats) : ComparisonBlock :=
  let playsChange : Int := (p2.total_plays : Int) - (p1.total_plays : Int)
  { plays_change := playsChange
    plays_change_percent :=
      if 0 < p1.total_plays then
        jsRound (((playsChange : ℚ) / (p1.total_plays : ℚ)) * 100)
      else 0
    hours_change_x10 := p2.total_hours_x10 - p1.total_hours_x10
    diversity_change := (p2.unique_artists : Int) - (p1.unique_artists : Int) }

/-- C6: for every pair of upstream period datasets, when the first period
has zero recorded plays the percentage change is exactly 0 (an Int, so no
NaN or Infinity can arise and no division is performed), and otherwise it
is Math.round of (plays2 - plays1) / plays1 * 100. -/
inductive SearchKind where
  | track
  | artist
  | album
deriving Repr, DecidableEq

/-- One raw item of the upstream artist-search response. -/
structure RawArtist where
  id : Option String := none
  mongoId : Option String := none
  name : Option String := none
deriving Repr, DecidableEq

/-- Parameters of searchHistory (dates omitted: they are only forwarded to
the inner top-tracks fetch). -/
structure SearchParams where
  query : String
  qtype : Option SearchKind := none
  offset : Option Nat := none
  limit : Option Nat := none
deriving Repr, DecidableEq

/-- Upstream responses searchHistory can consume: the artist-search result
(none models a thrown upstream error, the catch path) and the top-songs
payload behind the inner getTopTracks call with pool size 30 (the source
may issue that call twice on the fallback path; both return the same
upstream data here). -/
structure SearchUpstream where
  artistSearch : Option (List RawArtist) := none
  topSongs : List RawTopItem := []
deriving Repr, DecidableEq

/-- One listening-history entry of the response. -/
structure HistoryEntry where
  id : String
  track : Track
  played_at : String
  duration_ms : Nat
deriving Repr, DecidableEq

/-- The searchHistory response shape. -/
structure ListeningHistoryResponse where
  items : List HistoryEntry
  total : Nat
  offset : Nat
  limit : Nat
deriving Repr, DecidableEq

/-- Character-level test that the second list starts with the first. -/
def charsStartWith : List Char → List Char → Bool
  | [], _ => true
  | _ :: _, [] => false
  | a :: as, b :: bs => a == b && charsStartWith as bs

/-- Character-level substring test, the semantics of the JavaScript
String.includes method. -/
def charsContain (needle : List Char) : List Char → Bool
  | [] => charsStartWith needle []
  | c :: rest => charsStartWith needle (c :: rest) || charsContain needle rest

/-- Substring test on strings. -/
def strIncludes (hay q : String) : Bool := charsContain q.toList hay.toList

/-- Ids collected from the artist-search result: both the id and the _id
field of every candidate, dropping absent and empty values (the JavaScript
filter(Boolean)). -/
def artistIdsOf (arts : List RawArtist) : List String :=
  arts.flatMap (fun a => ([a.id, a.mongoId].filterMap (fun o => o)).filter
    (fun s => s != ""))

/-- Lower-cased names collected from the artist-search result, dropping
empties. -/
def artistNamesOf (arts : List RawArtist) : List String :=
  (arts.map (fun a => (a.name.getD "").toLower)).filter (fun s => s != "")

/-- A track matches the found artists when one of its artists matches by
id or by lower-cased name. -/
def matchesFoundArtists (ids names : List String) (t : TrackWithPlayCount) : Bool :=
  t.track.artists.any (fun a => ids.contains a.id || names.contains a.name.toLower)

/-- Local fallback filter for artist queries: case-insensitive substring
match on any artist name.  The query argument is already lower-cased. -/
def localArtistMatch (q : String) (t : TrackWithPlayCount) : Bool :=
  t.track.artists.any (fun a => strIncludes a.name.toLower q)

/-- Local filter for track and album queries: substring match on the track
name or any artist name. -/
def localTrackMatch (q : String) (t : TrackWithPlayCount) : Bool :=
  strIncludes t.track.name.toLower q
    || t.track.artists.any (fun a => strIncludes a.name.toLower q)

/-- Projection of a matched track into a history entry. -/
def toHistoryEntry (t : TrackWithPlayCount) : HistoryEntry :=
  { id := t.track.id, track := t.track, played_at := ""
    duration_ms := t.track.duration_ms }

/-- The try-block of the artist branch (service lines 328 to 373): for a
query of three or more characters with a successful nonempty upstream
artist search, the top-30 window filtered by the found artists — but only
when that filter is nonempty; in every other case the branch falls through
to local filtering. -/
def searchArtistApiResult (p : SearchParams) (u : SearchUpstream) :
    Option (List TrackWithPlayCount) :=
  if p.query.length ≥ 3 then
    match u.artistSearch with
    | some arts =>
      if arts.length > 0 then
        let allFiltered := (getTopTracksTracks 30 u.topSongs).filter
          (matchesFoundArtists (artistIdsOf arts) (artistNamesOf arts))
        if allFiltered.length > 0 then some allFiltered else none
      else none
    | none => none
  else none

/-- Embedding of service.searchHistory (lines 316 to 427): each branch
filters the top-30 window, slices the filtered list by offset and limit
for the page, and reports the full filtered length as total. -/
def searchHistory (p : SearchParams) (u : SearchUpstream) :
    ListeningHistoryResponse :=
  let off := jsOrN p.offset 0
  let lim := jsOrN p.limit 10
  if p.qtype = some SearchKind.artist then
    match searchArtistApiResult p u with
    | some allFiltered =>
      { items := ((allFiltered.drop off).take lim).map toHistoryEntry
        total := allFiltered.length
        offset := off
        limit := lim }
    | none =>
      let allFiltered := (getTopTracksTracks 30 u.topSongs).filter
        (localArtistMatch p.query.toLower)
      { items := ((allFiltered.drop off).take lim).map toHistoryEntry
        total := allFiltered.length
        offset := off
        limit := lim }
  else
    let allFiltered := (getTopTracksTracks 30 u.topSongs).filter
      (localTrackMatch p.query.toLower)
    { items := ((allFiltered.drop off).take lim).map toHistoryEntry
      total := allFiltered.length
      offset := off
      limit := lim }

/-- The full filtered match list of the branch searchHistory takes, before
any page is cut. -/
def searchHistoryFiltered (p : SearchParams) (u : SearchUpstream) :
    List TrackWithPlayCount :=
  if p.qtype = some SearchKind.artist then
    match searchArtistApiResult p u with
    | some allFiltered => allFiltered
    | none => (getTopTracksTracks 30 u.topSongs).filter
        (localArtistMatch p.query.toLower)
  else
    (getTopTracksTracks 30 u.topSongs).filter (localTrackMatch p.query.toLower)

/-- C7: every searchHistory response pages the locally filtered match list
by offset and limit, and its total field is the length of the full
filtered list before the page is cut, never the page size. -/
instance {ε α : Type} [DecidableEq ε] [DecidableEq α] :
    DecidableEq (Except ε α) := fun x y =>
  match x, y with
  | Except.error a, Except.error b =>
    if h : a = b then Decidable.isTrue (by rw [h])
    else Decidable.isFalse (fun hc => by cases hc; exact h rfl)
  | Except.error _, Except.ok _ => Decidable.isFalse (fun hc => by cases hc)
  | Except.ok _, Except.error _ => Decidable.isFalse (fun hc => by cases hc)
  | Except.ok a, Except.ok b =>
    if h : a = b then Decidable.isTrue (by rw [h])
    else Decidable.isFalse (fun hc => by cases hc; exact h rfl)

/-- Affinity input whose ids are unique and non-empty, but one consists of
whitespace only. -/
def c8BlankId : AffinityInput := { user_ids := [" ", "x"] }

/-- C8 counterexample: the two user ids of this input are unique and
non-empty, so by the claim the operation should proceed to the upstream
call, yet the service-side filter drops the whitespace-only id before the
request is built and the operation rejects instead. -/
def normWrappedTopTrack (item : RawTopItem) : TrackWithPlayCount :=
  { track :=
      { id := jsOrS item.trackId (jsOrS item.mongoId "")
        name := jsOrS item.trackName "Unknown"
        artists := [{ id := jsOrS item.artistId ""
                      name := jsOrS item.artistName ""
                      genres := none }]
        album := { id := jsOrS item.albumId ""
                   name := jsOrS item.albumName ""
                   release_date := "" }
        duration_ms := item.trackDurationMs.getD 0
        explicit := false
        uri := "spotify:track:" ++ jsOrS item.trackId "" }
    play_count := item.count.getD 0 }

/-- Upstream item carrying its track id only in the _id field, a shape the
normalizers are explicitly written to accept. -/
def c9FailItem : RawTopItem := { mongoId := some "abc123", count := some 3 }

/-- C9: the getTopTracks normalizer keeps the invariant uri =
"spotify:track:" ++ id for every item, but the createCustomWrapped
normalizer breaks it whenever the id comes from the _id fallback: on the
failing item the id is abc123 while the uri is the bare scheme text. -/

-- ============================================================
-- Theorems
-- ============================================================

theorem mem_insertByKey {k : α → Nat} {x z : α} :
    ∀ {l : List α}, z ∈ insertByKey k x l → z = x ∨ z ∈ l := by
  intro l
  induction l with
  | nil =>
    intro h
    simp [insertByKey] at h
    exact Or.inl h
  | cons y ys ih =>
    intro h
    simp only [insertByKey] at h
    split at h
    · rcases List.mem_cons.mp h with rfl | h2
      · exact Or.inl rfl
      · exact Or.inr h2
    · rcases List.mem_cons.mp h with rfl | h2
      · exact Or.inr (List.mem_cons_self _ _)
      · rcases ih h2 with h3 | h3
        · exact Or.inl h3
        · exact Or.inr (List.mem_cons_of_mem _ h3)

/-- Insertion produces a permutation of the element consed on the list. -/
theorem perm_insertByKey (k : α → Nat) (x : α) :
    ∀ l : List α, List.Perm (insertByKey k x l) (x :: l) := by
  intro l
  induction l with
  | nil => simp [insertByKey]
  | cons y ys ih =>
    simp only [insertByKey]
    split
    · exact List.Perm.refl _
    · exact ((ih.cons y).trans (List.Perm.swap x y ys))

/-- The sort produces a permutation of its input. -/
theorem perm_sortByKeyDesc (k : α → Nat) :
    ∀ l : List α, List.Perm (sortByKeyDesc k l) l := by
  intro l
  induction l with
  | nil => exact List.Perm.refl _
  | cons x xs ih =>
    exact (perm_insertByKey k x (sortByKeyDesc k xs)).trans (ih.cons x)

/-- The sort preserves length. -/
theorem length_sortByKeyDesc (k : α → Nat) (l : List α) :
    (sortByKeyDesc k l).length = l.length :=
  (perm_sortByKeyDesc k l).length_eq

/-- Insertion preserves the non-increasing-key invariant. -/
theorem pairwise_insertByKey {k : α → Nat} (x : α) :
    ∀ {l : List α}, l.Pairwise (fun a b => k b ≤ k a) →
      (insertByKey k x l).Pairwise (fun a b => k b ≤ k a) := by
  intro l
  induction l with
  | nil => simp [insertByKey]
  | cons y ys ih =>
    intro h
    rcases List.pairwise_cons.mp h with ⟨h1, h2⟩
    simp only [insertByKey]
    split
    · rename_i hle
      refine List.pairwise_cons.mpr ⟨?_, h⟩
      intro z hz
      rcases List.mem_cons.mp hz with rfl | hz2
      · exact hle
      · exact le_trans (h1 z hz2) hle
    · rename_i hgt
      refine List.pairwise_cons.mpr ⟨?_, ih h2⟩
      intro z hz
      rcases mem_insertByKey hz with rfl | hz2
      · exact le_of_lt (Nat.lt_of_not_le hgt)
      · exact h1 z hz2

/-- The sort output is non-increasing in the key. -/
theorem pairwise_sortByKeyDesc (k : α → Nat) :
    ∀ l : List α, (sortByKeyDesc k l).Pairwise (fun a b => k b ≤ k a) := by
  intro l
  induction l with
  | nil => simp [sortByKeyDesc]
  | cons x xs ih => exact pairwise_insertByKey x ih

/-- Inserting an element whose key equals c prepends it to the filter of the
list at key c: no equal-key element is jumped over. -/
theorem filter_insertByKey_eq {k : α → Nat} {x : α} {c : Nat} (hx : k x = c) :
    ∀ l : List α,
      (insertByKey k x l).filter (fun y => k y == c)
        = x :: l.filter (fun y => k y == c) := by
  intro l
  induction l with
  | nil => simp [insertByKey, hx]
  | cons y ys ih =>
    simp only [insertByKey]
    split
    · simp [List.filter, hx]
    · rename_i hgt
      have hyc : (k y == c) = false := by
        simp only [beq_eq_false_iff_ne]
        intro hyc
        exact hgt (by omega)
      simp [List.filter, hyc, ih]

/-- Inserting an element whose key differs from c leaves the filter at key c
unchanged. -/
theorem filter_insertByKey_ne {k : α → Nat} {x : α} {c : Nat} (hx : k x ≠ c) :
    ∀ l : List α,
      (insertByKey k x l).filter (fun y => k y == c)
        = l.filter (fun y => k y == c) := by
  intro l
  have hxc : (k x == c) = false := by simp [hx]
  induction l with
  | nil => simp [insertByKey, hxc]
  | cons y ys ih =>
    simp only [insertByKey]
    split
    · simp [List.filter, hxc]
    · simp [List.filter, ih]

/-- Stability of the sort: for every key value c, the elements of key c
appear in the output exactly in their input order. -/
theorem filter_sortByKeyDesc (k : α → Nat) (c : Nat) :
    ∀ l : List α,
      (sortByKeyDesc k l).filter (fun y => k y == c)
        = l.filter (fun y => k y == c) := by
  intro l
  induction l with
  | nil => rfl
  | cons x xs ih =>
    simp only [sortByKeyDesc]
    by_cases hx : k x = c
    · rw [filter_insertByKey_eq hx, ih]
      simp [List.filter, hx]
    · rw [filter_insertByKey_ne hx, ih]
      have hxc : (k x == c) = false := by simp [hx]
      simp [List.filter, hxc]

-- ============================================================
-- Concrete payloads for claim C1
-- ============================================================

/-- Upstream item with track name A and count 10, from the end-to-end
scenario of the spec. -/
theorem C1_counterexample :
    ¬ (YourSpotifyMCP.getTopTracksTracks 1 YourSpotifyMCP.c1Payload).length
      = min 1 YourSpotifyMCP.c1Payload.length := by
  decide

/-- C1 (amended): for every upstream payload and requested limit, the
TopTracks and TopArtists result lists have exactly the length of the
upstream payload (the limit is forwarded upstream, never applied locally),
are sorted by play_count non-increasing, and keep equal-count elements in
original upstream order (for every count value c, filtering the output at
count c gives the same sequence as filtering the normalized input); and in
the concrete scenario with payload [A(10), B(25)] and limit 2, getTopTracks
returns B(25) then A(10). -/
theorem C1_top_lists_sorted_stable :
    (∀ (lim : Nat) (raw : List RawTopItem),
      (getTopTracksTracks lim raw).length = raw.length ∧
      (getTopTracksTracks lim raw).Pairwise
        (fun a b => b.play_count ≤ a.play_count) ∧
      (∀ c : Nat,
        (getTopTracksTracks lim raw).filter (fun t => t.play_count == c)
          = (raw.map normTopTrack).filter (fun t => t.play_count == c))) ∧
    (∀ (lim : Nat) (raw : List RawTopItem),
      (getTopArtistsArtists lim raw).length = raw.length ∧
      (getTopArtistsArtists lim raw).Pairwise
        (fun a b => b.play_count ≤ a.play_count) ∧
      (∀ c : Nat,
        (getTopArtistsArtists lim raw).filter (fun a => a.play_count == c)
          = (raw.map normTopArtist).filter (fun a => a.play_count == c))) ∧
    getTopTracksTracks 2 c1Payload
      = [{ track := { id := "", name := "B"
                      artists := [{ id := "", name := "Unknown", genres := none }]
                      album := { id := "", name := "", release_date := "" }
                      duration_ms := 0, explicit := false
                      uri := "spotify:track:" }
           play_count := 25 },
         { track := { id := "", name := "A"
                      artists := [{ id := "", name := "Unknown", genres := none }]
                      album := { id := "", name := "", release_date := "" }
                      duration_ms := 0, explicit := false
                      uri := "spotify:track:" }
           play_count := 10 }] := by
  refine ⟨?_, ?_, by decide⟩
  · intro lim raw
    refine ⟨?_, ?_, ?_⟩
    · rw [getTopTracksTracks, length_sortByKeyDesc, List.length_map]
    · exact pairwise_sortByKeyDesc _ _
    · intro c
      exact filter_sortByKeyDesc _ c _
  · intro lim raw
    refine ⟨?_, ?_, ?_⟩
    · rw [getTopArtistsArtists, length_sortByKeyDesc, List.length_map]
    · exact pairwise_sortByKeyDesc _ _
    · intro c
      exact filter_sortByKeyDesc _ c _

-- ============================================================
-- Calendar dates.  Tool inputs are YYYY-MM-DD strings; the JavaScript
-- Date constructor parses them as UTC midnight, so a parsed date is
-- exactly a civil (year, month, day) triple and its millisecond value is
-- an affine function of its civil day number.
-- ============================================================

/-- A calendar date as parsed from a YYYY-MM-DD input string. -/
theorem dateMs_epoch : dateMs { year := 1970, month := 1, day := 1 } = 0 := by
  decide

-- ============================================================
-- Phase-1 (pre-upstream) validation of the period-accepting handlers.
-- Each function embeds exactly the code a handler and its service method
-- run before the first upstream HTTP request, and returns the thrown
-- error message or the list of endpoints requested next.
-- ============================================================

/-- Validation phase of handleGetTopTracks (get-top-tracks.ts lines 126
to 140): when both dates are present and start is after end, throw;
otherwise the service requests /spotify/top/songs.  The limit input is
only forwarded upstream as the nb parameter. -/
theorem C2_counterexample :
    YourSpotifyMCP.dateMs YourSpotifyMCP.c2BadCompare.period1_start >
        YourSpotifyMCP.dateMs YourSpotifyMCP.c2BadCompare.period1_end ∧
      YourSpotifyMCP.comparePhase1 YourSpotifyMCP.c2BadCompare
        = Except.ok YourSpotifyMCP.compareUpstreamEndpoints := by
  exact ⟨by decide, rfl⟩

/-- C2 (amended): among the period-accepting operations, get_top_tracks,
create_custom_wrapped and analyze_affinity reject an input with start
after end before issuing any upstream call; compare_listening_periods
performs no date-order validation at all and always proceeds directly to
its six upstream requests. -/
theorem C2_start_after_end_validation :
    (∀ s e : CivilDate, dateMs s > dateMs e →
      getTopTracksPhase1 (some s) (some e)
        = Except.error "start_date must be before end_date") ∧
    (∀ s e : CivilDate, dateMs s > dateMs e →
      wrappedPhase1 s e = Except.error "start_date must be before end_date") ∧
    (∀ (ids : List String) (s e : CivilDate), dateMs s > dateMs e →
      (affinityPhase1 { user_ids := ids, start_date := some s, end_date := some e }).isOk
        = false) ∧
    (∀ input : CompareInput, comparePhase1 input = Except.ok compareUpstreamEndpoints) := by
  refine ⟨?_, ?_, ?_, fun _ => rfl⟩
  · intro s e h
    simp [getTopTracksPhase1, h]
  · intro s e h
    simp [wrappedPhase1, h]
  · intro ids s e h
    by_cases h1 : ids.length < 2
    · simp [affinityPhase1, h1, Except.isOk, Except.toBool]
    · by_cases h2 : ids.length > 5
      · simp [affinityPhase1, h1, h2, Except.isOk, Except.toBool]
      · by_cases h3 : ids.dedup.length ≠ ids.length
        · simp [affinityPhase1, h1, h2, h3, Except.isOk, Except.toBool]
        · simp [affinityPhase1, h1, h2, h3, h, Except.isOk, Except.toBool]

/-- C2 witness: the amended theorem applied at concrete inputs. -/
theorem C2_witness :
    YourSpotifyMCP.getTopTracksPhase1 (some { year := 2024, month := 6, day := 1 })
        (some { year := 2024, month := 1, day := 1 })
        = Except.error "start_date must be before end_date" ∧
      YourSpotifyMCP.wrappedPhase1 { year := 2024, month := 6, day := 1 }
        { year := 2024, month := 1, day := 1 }
        = Except.error "start_date must be before end_date" ∧
      (YourSpotifyMCP.affinityPhase1
        { user_ids := ["alice", "bob"]
          start_date := some { year := 2024, month := 6, day := 1 }
          end_date := some { year := 2024, month := 1, day := 1 } }).isOk = false ∧
      YourSpotifyMCP.comparePhase1 YourSpotifyMCP.c2BadCompare
        = Except.ok YourSpotifyMCP.compareUpstreamEndpoints :=
  ⟨C2_start_after_end_validation.1 _ _ (by decide),
   C2_start_after_end_validation.2.1 _ _ (by decide),
   C2_start_after_end_validation.2.2.1 _ _ _ (by decide),
   C2_start_after_end_validation.2.2.2 _⟩

-- ============================================================
-- Rank lookups (service getArtistRank lines 763 to 802 and getTrackRank
-- lines 808 to 848)
-- ============================================================

/-- One entry of an upstream rank-neighborhood results array. -/
theorem C3_rank_le_total :
    (∀ (aid : String) (raw : RankRaw) (nm : Option String)
        (g : Option (List String)),
      (getArtistRank aid raw nm g).rank = raw.index.getD 0 + 1 ∧
      (getArtistRank aid raw nm g).total_artists
        = max (raw.results.getD []).length (raw.index.getD 0 + 1) ∧
      (getArtistRank aid raw nm g).rank ≤ (getArtistRank aid raw nm g).total_artists) ∧
    (∀ (tid : String) (raw : RankRaw) (info : RawTrackInfo),
      (getTrackRank tid raw info).rank = raw.index.getD 0 + 1 ∧
      (getTrackRank tid raw info).total_tracks
        = max (raw.results.getD []).length (raw.index.getD 0 + 1) ∧
      (getTrackRank tid raw info).rank ≤ (getTrackRank tid raw info).total_tracks) ∧
    (getArtistRank "a1" c3Neighborhood none none).rank = 5 ∧
    (getArtistRank "a1" c3Neighborhood none none).total_artists = 5 ∧
    (getTrackRank "t1" c3Neighborhood {}).rank = 5 ∧
    (getTrackRank "t1" c3Neighborhood {}).total_tracks = 5 := by
  refine ⟨?_, ?_, by decide, by decide, by decide, by decide⟩
  · intro aid raw nm g
    exact ⟨rfl, rfl, Nat.le_max_right _ _⟩
  · intro tid raw info
    exact ⟨rfl, rfl, Nat.le_max_right _ _⟩

-- ============================================================
-- Peak-pattern helpers of create_custom_wrapped (tool file, getPeakHour
-- lines 133 to 145, getPeakDay lines 147 to 168)
-- ============================================================

/-- The reduce step of both peak helpers: keep the running maximum unless
the current entry is strictly greater, so the first maximum wins. -/
theorem foldl_argmax_mem :
    ∀ (es : List (α × Nat)) (e : α × Nat),
      es.foldl (fun mx c => if mx.2 < c.2 then c else mx) e ∈ e :: es := by
  intro es
  induction es with
  | nil => intro e; simp
  | cons c cs ih =>
    intro e
    simp only [List.foldl_cons]
    rcases List.mem_cons.mp (ih (if e.2 < c.2 then c else e)) with h | h
    · rw [h]
      split
      · exact List.mem_cons_of_mem _ (List.mem_cons_self _ _)
      · exact List.mem_cons_self _ _
    · exact List.mem_cons_of_mem _ (List.mem_cons_of_mem _ h)

/-- The fold result dominates the seed and every element. -/
theorem foldl_argmax_ge :
    ∀ (es : List (α × Nat)) (e : α × Nat),
      ∀ q ∈ e :: es,
        q.2 ≤ (es.foldl (fun mx c => if mx.2 < c.2 then c else mx) e).2 := by
  intro es
  induction es with
  | nil =>
    intro e q hq
    rcases List.mem_cons.mp hq with rfl | h
    · exact le_refl _
    · simp at h
  | cons c cs ih =>
    intro e q hq
    simp only [List.foldl_cons]
    have hstep : e.2 ≤ (if e.2 < c.2 then c else e).2 ∧
        c.2 ≤ (if e.2 < c.2 then c else e).2 := by
      split
      · rename_i hlt
        exact ⟨le_of_lt hlt, le_refl _⟩
      · rename_i hge
        exact ⟨le_refl _, Nat.le_of_not_lt hge⟩
    rcases List.mem_cons.mp hq with rfl | h
    · exact le_trans hstep.1
        (ih _ _ (List.mem_cons_self _ _))
    · rcases List.mem_cons.mp h with rfl | h2
      · exact le_trans hstep.2
          (ih _ _ (List.mem_cons_self _ _))
      · exact ih _ _ (List.mem_cons_of_mem _ h2)

/-- The first-maximum reduce returns a member of the list. -/
theorem argmaxFirst_mem {l : List (α × Nat)} {p : α × Nat}
    (h : argmaxFirst l = some p) : p ∈ l := by
  cases l with
  | nil => simp [argmaxFirst] at h
  | cons e es =>
    simp only [argmaxFirst, Option.some.injEq] at h
    exact h ▸ foldl_argmax_mem es e

/-- The first-maximum reduce returns a maximal value. -/
theorem argmaxFirst_ge {l : List (α × Nat)} {p : α × Nat}
    (h : argmaxFirst l = some p) : ∀ q ∈ l, q.2 ≤ p.2 := by
  cases l with
  | nil => simp [argmaxFirst] at h
  | cons e es =>
    simp only [argmaxFirst, Option.some.injEq] at h
    exact fun q hq => h ▸ foldl_argmax_ge es e q hq

/-- A nonempty list has a first maximum. -/
theorem argmaxFirst_isSome {l : List (α × Nat)} (h : l ≠ []) :
    ∃ p, argmaxFirst l = some p := by
  cases l with
  | nil => exact absurd rfl h
  | cons e es => exact ⟨_, rfl⟩

/-- The 24-bucket hour histogram with every bucket zero, exactly what
createCustomWrapped hands to getPeakHour when the upstream hour series is
empty (it starts buckets 0 to 23 at zero before aggregating). -/
theorem C4_counterexample :
    (∀ q ∈ YourSpotifyMCP.allZeroHour24, q.2 = 0) ∧
      YourSpotifyMCP.getPeakHour YourSpotifyMCP.allZeroHour24 = "12AM" ∧
      YourSpotifyMCP.getPeakHour YourSpotifyMCP.allZeroHour24 ≠ "Unknown" := by
  exact ⟨by decide, by decide, by decide⟩

/-- C4 (amended): peak hour and peak day are the first arg-max bucket of
their histograms; getPeakDay reports Unknown whenever every bucket is
zero, but getPeakHour has no such zero check and formats the first bucket
even on an all-zero histogram (yielding 12AM). -/
theorem C4_peak_argmax :
    (∀ hs : List (Nat × Nat), hs ≠ [] →
      ∃ p, p ∈ hs ∧ (∀ q ∈ hs, q.2 ≤ p.2) ∧ getPeakHour hs = fmtHour p.1) ∧
    (∀ ds : List (String × Nat), (∀ q ∈ ds, q.2 = 0) →
      getPeakDay ds = "Unknown") ∧
    (∀ (ds : List (String × Nat)) (p : String × Nat),
      argmaxFirst ds = some p → 0 < p.2 → p.1 ∈ dayNames →
        getPeakDay ds = p.1 ∧ p ∈ ds ∧ ∀ q ∈ ds, q.2 ≤ p.2) ∧
    getPeakHour allZeroHour24 = "12AM" := by
  refine ⟨?_, ?_, ?_, by decide⟩
  · intro hs h
    obtain ⟨p, hp⟩ := argmaxFirst_isSome h
    exact ⟨p, argmaxFirst_mem hp, argmaxFirst_ge hp, by simp [getPeakHour, hp]⟩
  · intro ds h
    cases hp : argmaxFirst ds with
    | none => simp [getPeakDay, hp]
    | some p =>
      have hz : p.2 = 0 := h p (argmaxFirst_mem hp)
      simp [getPeakDay, hp, hz]
  · intro ds p hp hpos hname
    have hcontains : dayNames.contains p.1 = true := by
      simpa using hname
    refine ⟨?_, argmaxFirst_mem hp, argmaxFirst_ge hp⟩
    simp [getPeakDay, hp, Nat.pos_iff_ne_zero.mp hpos, hcontains]
    exact fun hn => absurd hname hn

/-- C4 witness: the amended theorem applied to concrete histograms. -/
theorem C4_witness :
    (∃ p, p ∈ [((14 : Nat), (5 : Nat)), (3, 9)] ∧
        (∀ q ∈ [((14 : Nat), (5 : Nat)), (3, 9)], q.2 ≤ p.2) ∧
        YourSpotifyMCP.getPeakHour [(14, 5), (3, 9)] = YourSpotifyMCP.fmtHour p.1) ∧
      YourSpotifyMCP.getPeakDay [("Monday", 0), ("Friday", 0)] = "Unknown" ∧
      (YourSpotifyMCP.getPeakDay [("Monday", 3), ("Friday", 1)] = "Monday" ∧
        ("Monday", (3 : Nat)) ∈ [("Monday", (3 : Nat)), ("Friday", 1)] ∧
        ∀ q ∈ [("Monday", (3 : Nat)), ("Friday", 1)], q.2 ≤ 3) :=
  ⟨C4_peak_argmax.1 _ (by decide),
   C4_peak_argmax.2.1 _ (by decide),
   C4_peak_argmax.2.2.1 _ ("Monday", 3) (by decide) (by decide) (by decide)⟩

-- ============================================================
-- create_custom_wrapped: the post-fetch handler computation (tool lines
-- 224 to 303).  Floating-point hour values rounded to one decimal are
-- modelled exactly as integer tenths (the x10 fields); the two
-- presentation-only strings (period description and summary message) are
-- not modelled.
-- ============================================================

/-- An album paired with its play count. -/
theorem jsCeilDiv_day_exact (d : Int) : jsCeilDiv (d * 86400000) 86400000 = d := by
  have h : Int.ediv ((-d) * 86400000) 86400000 = -d :=
    Int.mul_ediv_cancel _ (by norm_num)
  unfold jsCeilDiv
  rw [show -(d * 86400000) = (-d) * 86400000 by ring, h]
  ring

/-- C5: for valid dates in order, create_custom_wrapped passes validation
and proceeds to its upstream fetches whenever the inclusive day span
(difference of civil day numbers plus one) is at most 366, and rejects
with the range error before any fetch whenever the span is 367 or more;
in particular 2024-01-01 to 2024-12-31 (366 inclusive days across a leap
year) passes with day count 366, while 2024-01-01 to 2025-01-01 (367
days) is rejected. -/
theorem C5_wrapped_366_day_bound :
    (∀ s e : CivilDate, ValidDate s → ValidDate e → dayNumber s ≤ dayNumber e →
      ((dayNumber e : Int) - (dayNumber s : Int) + 1 ≤ 366 →
        wrappedPhase1 s e
          = Except.ok ((dayNumber e : Int) - (dayNumber s : Int) + 1)) ∧
      (367 ≤ (dayNumber e : Int) - (dayNumber s : Int) + 1 →
        wrappedPhase1 s e
          = Except.error "Date range cannot exceed 365 days for custom Wrapped")) ∧
    wrappedPhase1 { year := 2024, month := 1, day := 1 }
        { year := 2024, month := 12, day := 31 } = Except.ok 366 ∧
    wrappedPhase1 { year := 2024, month := 1, day := 1 }
        { year := 2025, month := 1, day := 1 }
      = Except.error "Date range cannot exceed 365 days for custom Wrapped" := by
  refine ⟨?_, by rfl, by rfl⟩
  intro s e _hs _he hle
  have hnotlt : ¬ dateMs s > dateMs e := by
    have : dateMs s ≤ dateMs e := by
      unfold dateMs
      have : (dayNumber s : Int) - 719468 ≤ (dayNumber e : Int) - 719468 := by
        omega
      exact mul_le_mul_of_nonneg_right this (by norm_num)
    omega
  have harith : dateMs e - dateMs s
      = ((dayNumber e : Int) - (dayNumber s : Int)) * 86400000 := by
    unfold dateMs
    ring
  constructor
  · intro hspan
    simp only [wrappedPhase1, if_neg hnotlt, harith, jsCeilDiv_day_exact]
    rw [if_neg (by omega)]
  · intro hspan
    simp only [wrappedPhase1, if_neg hnotlt, harith, jsCeilDiv_day_exact]
    rw [if_pos (by omega)]

/-- C5 witness: the general statement applied to the two scenario periods. -/
theorem C5_witness :
    YourSpotifyMCP.wrappedPhase1 { year := 2024, month := 1, day := 1 }
        { year := 2024, month := 12, day := 31 }
        = Except.ok ((YourSpotifyMCP.dayNumber { year := 2024, month := 12, day := 31 } : Int)
            - (YourSpotifyMCP.dayNumber { year := 2024, month := 1, day := 1 } : Int) + 1) ∧
      YourSpotifyMCP.wrappedPhase1 { year := 2024, month := 1, day := 1 }
        { year := 2025, month := 1, day := 1 }
        = Except.error "Date range cannot exceed 365 days for custom Wrapped" :=
  ⟨(C5_wrapped_366_day_bound.1 _ _ (by decide) (by decide) (by decide)).1 (by decide),
   (C5_wrapped_366_day_bound.1 _ _ (by decide) (by decide) (by decide)).2 (by decide)⟩

/-- Concrete service data used to exercise the wrapped handler. -/
theorem C10_wrapped_discoveries_constant :
    ∀ (s e : CivilDate) (data : WrappedData) (out : WrappedOutput),
      handleCreateCustomWrapped s e data = Except.ok out →
        out.discoveries
          = { new_artists_count := 0, new_tracks_count := 0
              top_new_artist := none } := by
  intro s e data out h
  unfold handleCreateCustomWrapped at h
  cases hp : wrappedPhase1 s e with
  | error msg =>
    rw [hp] at h
    exact absurd h (by simp)
  | ok days =>
    rw [hp] at h
    have hout : out = wrappedBuild s e days data := by
      cases h
      rfl
    rw [hout]
    rfl

/-- C10 witness: the theorem applied to a concrete January 2024 period and
concrete service data. -/
theorem C10_witness :
    (YourSpotifyMCP.wrappedBuild { year := 2024, month := 1, day := 1 }
        { year := 2024, month := 1, day := 31 } 31 YourSpotifyMCP.c10Data).discoveries
      = { new_artists_count := 0, new_tracks_count := 0, top_new_artist := none } :=
  C10_wrapped_discoveries_constant
    { year := 2024, month := 1, day := 1 } { year := 2024, month := 1, day := 31 }
    c10Data _ (by rfl)

-- ============================================================
-- compare_listening_periods: service aggregation (service lines 1053 to
-- 1115) and the handler comparison block (compare tool lines 139 to 176).
-- Hour totals rounded to one decimal are modelled as integer tenths.
-- ============================================================

/-- Per-period statistics the compare service returns to the handler. -/
theorem C6_percent_zero_guard :
    ∀ (s1 a1 s2 a2 : List RawTopItem) (t1 t2 : List (Option Nat)),
      ((serviceComparePeriod s1 a1 t1).total_plays = 0 →
        (compareComparison (serviceComparePeriod s1 a1 t1)
            (serviceComparePeriod s2 a2 t2)).plays_change_percent = 0) ∧
      (0 < (serviceComparePeriod s1 a1 t1).total_plays →
        (compareComparison (serviceComparePeriod s1 a1 t1)
            (serviceComparePeriod s2 a2 t2)).plays_change_percent
          = jsRound (((((serviceComparePeriod s2 a2 t2).total_plays : Int)
                - ((serviceComparePeriod s1 a1 t1).total_plays : Int) : ℚ)
              / ((serviceComparePeriod s1 a1 t1).total_plays : ℚ)) * 100)) := by
  intro s1 a1 s2 a2 t1 t2
  constructor
  · intro h0
    simp [compareComparison, h0]
  · intro hpos
    simp only [compareComparison, if_pos hpos]
    norm_num

/-- C6 witness: an empty first period yields exactly 0, and a first period
with 4 plays against a second with 7 yields Math.round(75) = 75. -/
theorem C6_witness :
    (YourSpotifyMCP.compareComparison
        (YourSpotifyMCP.serviceComparePeriod [] [] [])
        (YourSpotifyMCP.serviceComparePeriod [{ totalCount := some 7 }] [] [])).plays_change_percent
      = 0 ∧
    (YourSpotifyMCP.compareComparison
        (YourSpotifyMCP.serviceComparePeriod [{ totalCount := some 4 }] [] [])
        (YourSpotifyMCP.serviceComparePeriod [{ totalCount := some 7 }] [] [])).plays_change_percent
      = YourSpotifyMCP.jsRound
          ((((YourSpotifyMCP.serviceComparePeriod [{ totalCount := some 7 }] [] []).total_plays : Int)
              - ((YourSpotifyMCP.serviceComparePeriod [{ totalCount := some 4 }] [] []).total_plays : Int) : ℚ)
            / ((YourSpotifyMCP.serviceComparePeriod [{ totalCount := some 4 }] [] []).total_plays : ℚ) * 100) :=
  ⟨(C6_percent_zero_guard [] [] [{ totalCount := some 7 }] [] [] []).1 rfl,
   (C6_percent_zero_guard [{ totalCount := some 4 }] [] [{ totalCount := some 7 }] [] [] []).2
     (by decide)⟩

-- ============================================================
-- search_listening_history (service searchHistory, lines 316 to 427)
-- ============================================================

/-- Search entity type of the query. -/
theorem C7_search_total_and_page :
    ∀ (p : SearchParams) (u : SearchUpstream),
      (searchHistory p u).total = (searchHistoryFiltered p u).length ∧
      (searchHistory p u).items
        = (((searchHistoryFiltered p u).drop (jsOrN p.offset 0)).take
            (jsOrN p.limit 10)).map toHistoryEntry ∧
      (searchHistory p u).offset = jsOrN p.offset 0 ∧
      (searchHistory p u).limit = jsOrN p.limit 10 := by
  intro p u
  by_cases ht : p.qtype = some SearchKind.artist
  · cases hres : searchArtistApiResult p u with
    | some f => simp [searchHistory, searchHistoryFiltered, ht, hres]
    | none => simp [searchHistory, searchHistoryFiltered, ht, hres]
  · simp [searchHistory, searchHistoryFiltered, ht]

/-- Decidable equality of Except values, for evaluating phase-1 results on
concrete inputs. -/
theorem C8_counterexample :
    (" " : String) ≠ "" ∧
      YourSpotifyMCP.c8BlankId.user_ids.length = 2 ∧
      YourSpotifyMCP.c8BlankId.user_ids.Nodup ∧
      YourSpotifyMCP.affinityPhase1 YourSpotifyMCP.c8BlankId
        = Except.error
            "Affinity analysis requires at least 2 valid user IDs (non-empty strings)" := by
  exact ⟨by decide, by decide, by decide, by decide⟩

/-- C8 (amended): analyze_affinity rejects, before any upstream call,
every input with fewer than 2 ids, more than 5 ids, or duplicate ids; and
every input of 2 to 5 unique ids that are non-empty after trimming
whitespace, with no start-after-end date violation, proceeds to the
collaborative upstream request.  (Ids that are non-empty but blank after
trimming are additionally rejected, which the counterexample records.) -/
theorem C8_affinity_validation :
    (∀ inp : AffinityInput, inp.user_ids.length < 2 →
      ∃ m, affinityPhase1 inp = Except.error m) ∧
    (∀ inp : AffinityInput, inp.user_ids.length > 5 →
      ∃ m, affinityPhase1 inp = Except.error m) ∧
    (∀ inp : AffinityInput, ¬ inp.user_ids.Nodup →
      ∃ m, affinityPhase1 inp = Except.error m) ∧
    (∀ inp : AffinityInput,
      2 ≤ inp.user_ids.length → inp.user_ids.length ≤ 5 → inp.user_ids.Nodup →
      (∀ id ∈ inp.user_ids, jsTrim id ≠ "") →
      (∀ s e : CivilDate, inp.start_date = some s → inp.end_date = some e →
        ¬ dateMs s > dateMs e) →
      affinityPhase1 inp = Except.ok ["/spotify/collaborative/top/songs"]) := by
  refine ⟨?_, ?_, ?_, ?_⟩
  · intro inp h
    exact ⟨"At least 2 user IDs are required for affinity analysis",
      by simp [affinityPhase1, h]⟩
  · intro inp h
    have h2 : ¬ inp.user_ids.length < 2 := by omega
    exact ⟨"Maximum 5 users can be compared at once",
      by simp [affinityPhase1, h, h2]⟩
  · intro inp h
    by_cases h2 : inp.user_ids.length < 2
    · exact ⟨"At least 2 user IDs are required for affinity analysis",
        by simp [affinityPhase1, h2]⟩
    · by_cases h5 : inp.user_ids.length > 5
      · exact ⟨"Maximum 5 users can be compared at once",
          by simp [affinityPhase1, h2, h5]⟩
      · have hne : inp.user_ids.dedup ≠ inp.user_ids := by
          intro he
          exact h (List.dedup_eq_self.mp he)
        have hlen : inp.user_ids.dedup.length ≠ inp.user_ids.length := by
          intro he
          exact hne ((List.dedup_sublist inp.user_ids).eq_of_length he)
        exact ⟨"Duplicate user IDs are not allowed",
          by simp [affinityPhase1, h2, h5, hlen]⟩
  · intro inp hlo hhi hnd htrim hdates
    have h2 : ¬ inp.user_ids.length < 2 := by omega
    have h5 : ¬ inp.user_ids.length > 5 := by omega
    have hded : inp.user_ids.dedup.length = inp.user_ids.length := by
      rw [List.dedup_eq_self.mpr hnd]
    have hserv : affinityServiceCheck inp.user_ids
        = Except.ok ["/spotify/collaborative/top/songs"] := by
      have hfilter : inp.user_ids.filter (fun id => id != "" && jsTrim id != "")
          = inp.user_ids := by
        apply List.filter_eq_self.mpr
        intro id hid
        have ht := htrim id hid
        have hne : id ≠ "" := by
          intro he
          exact ht (by rw [he]; decide)
        simp [hne, ht]
      simp [affinityServiceCheck, h2, hfilter]
    simp only [affinityPhase1, if_neg h2, if_neg h5]
    rw [if_neg (by omega)]
    cases hs : inp.start_date with
    | none => exact hserv
    | some s =>
      cases he : inp.end_date with
      | none => exact hserv
      | some e =>
        dsimp only
        rw [if_neg (hdates s e hs he)]
        exact hserv

/-- C8 witness: the amended theorem applied at concrete inputs of each
kind. -/
theorem C8_witness :
    (∃ m, YourSpotifyMCP.affinityPhase1 { user_ids := ["solo"] } = Except.error m) ∧
      (∃ m, YourSpotifyMCP.affinityPhase1
        { user_ids := ["a", "b", "c", "d", "e", "f"] } = Except.error m) ∧
      (∃ m, YourSpotifyMCP.affinityPhase1 { user_ids := ["a", "a"] } = Except.error m) ∧
      YourSpotifyMCP.affinityPhase1 { user_ids := ["alice", "bob"] }
        = Except.ok ["/spotify/collaborative/top/songs"] :=
  ⟨C8_affinity_validation.1 _ (by decide),
   C8_affinity_validation.2.1 _ (by decide),
   C8_affinity_validation.2.2.1 _ (by decide),
   C8_affinity_validation.2.2.2 _ (by decide) (by decide) (by decide)
     (by decide) (fun s e hs _ => by simp at hs)⟩

-- ============================================================
-- The uri and id fallback chains of the wrapped top-tracks normalizer
-- (service createCustomWrapped lines 505 to 516)
-- ============================================================

/-- Normalizer of one top-songs item inside createCustomWrapped (service
lines 505 to 516).  The id uses the chain item.track?.id || item._id ||
empty, but the uri interpolates only item.track?.id || empty, omitting the
_id fallback the id uses. -/
theorem C9_uri_not_derivable_from_id :
    (∀ item : RawTopItem,
      (normTopTrack item).track.uri
        = "spotify:track:" ++ (normTopTrack item).track.id) ∧
    (normWrappedTopTrack c9FailItem).track.id = "abc123" ∧
    (normWrappedTopTrack c9FailItem).track.uri = "spotify:track:" ∧
    (normWrappedTopTrack c9FailItem).track.uri
      ≠ "spotify:track:" ++ (normWrappedTopTrack c9FailItem).track.id := by
  exact ⟨fun item => rfl, by decide, by decide, by decide⟩

end YourSpotifyMCP
